import Mathlib

/-!
Verification development for the CDSS (clinical decision support) repository:
a shallow embedding of the hybrid decision engine, the case lifecycle, the
frontend API client and its page handlers, together with theorems settling
the specification claims.

Numeric conventions of the embedding:
* vitals recorded with one decimal place in the source (spo2, temperature,
  weight) are carried as integers in tenths of a unit;
* probabilities and risk scores recorded with three decimal places
  (NUMERIC(4,3) in the schema) are carried as integers in thousandths.
-/

namespace CDSS

/-- Risk tier, from the `risk_level` enum of the database schema and the
`RiskLevel` union type of the frontend. -/
inductive RiskLevel where
  | low
  | moderate
  | high
  | critical
deriving DecidableEq, Repr

/-- Severity ordering critical > high > moderate > low, as a numeric rank. -/
def RiskLevel.rank : RiskLevel → Nat
  | .low => 0
  | .moderate => 1
  | .high => 2
  | .critical => 3

/-- Maximum of two risk levels under the severity order. -/
def maxLevel (a b : RiskLevel) : RiskLevel :=
  if a.rank ≤ b.rank then b else a

/-- Sex, from the `sex` check constraint and the frontend `SexEnum`. -/
inductive Sex where
  | male
  | female
  | other
deriving DecidableEq, Repr

/-- Vulnerability flags, from the frontend `VulnerabilityFlags` interface and
the JSONB default of the `patients` table. -/
structure VulnerabilityFlags where
  pregnant : Bool
  diabetic : Bool
  elderly : Bool
  heart_disease : Bool
  immunocompromised : Bool
deriving DecidableEq, Repr

/-- Vitals snapshot, from the `vitals` table of the schema and the frontend
`VitalsInput` interface.  `spo2Tenths`, `temperatureTenths` and
`weight_kgTenths` hold ten times the recorded value. -/
structure Vitals where
  systolic_bp : Int
  diastolic_bp : Int
  heart_rate : Int
  respiratory_rate : Int
  spo2Tenths : Int
  temperatureTenths : Int
  blood_glucose_mgdl : Option Int
  weight_kgTenths : Option Int
  gcs_score : Option Int
deriving DecidableEq, Repr

/-- Symptom severity, from the `case_symptoms.severity` check constraint. -/
inductive Severity where
  | mild
  | moderate
  | severe
deriving DecidableEq, Repr

/-- Symptom entry, from the frontend `SymptomInput` interface and the
`case_symptoms` table. -/
structure SymptomInput where
  symptom_name : String
  is_red_flag : Bool
  severity : Option Severity
  duration_hours : Option Int
deriving DecidableEq, Repr

/-- Medication entry, from the frontend `MedicationInput` interface and the
`case_medications` table. -/
structure MedicationInput where
  rxnorm_code : Option String
  drug_name : String
  dose : Option String
  frequency : Option String
  route : Option String
deriving DecidableEq, Repr

/-- Intake payload, from the frontend `PatientIntakeRequest` interface. -/
structure IntakeRequest where
  patient_name : String
  age : Int
  sex : Sex
  village : Option String
  district : Option String
  vulnerability_flags : VulnerabilityFlags
  vitals : Vitals
  medications : List MedicationInput
  symptoms : List SymptomInput
  chief_complaint : String
deriving DecidableEq, Repr

/-- Declared vitals ranges, from the CHECK constraints of the `vitals` table
(systolic_bp 40–350, diastolic_bp 20–250, heart_rate 20–350,
respiratory_rate 4–80, spo2 50.0–100.0, temperature 30.0–45.0,
blood_glucose 20–1000, gcs 3–15); identical to the ranges of spec section 3. -/
def vitalsValid (v : Vitals) : Prop :=
  40 ≤ v.systolic_bp ∧ v.systolic_bp ≤ 350 ∧
  20 ≤ v.diastolic_bp ∧ v.diastolic_bp ≤ 250 ∧
  20 ≤ v.heart_rate ∧ v.heart_rate ≤ 350 ∧
  4 ≤ v.respiratory_rate ∧ v.respiratory_rate ≤ 80 ∧
  500 ≤ v.spo2Tenths ∧ v.spo2Tenths ≤ 1000 ∧
  300 ≤ v.temperatureTenths ∧ v.temperatureTenths ≤ 450 ∧
  (∀ g ∈ v.blood_glucose_mgdl, 20 ≤ g ∧ g ≤ 1000) ∧
  (∀ g ∈ v.gcs_score, 3 ≤ g ∧ g ≤ 15)

instance (v : Vitals) : Decidable (vitalsValid v) := by
  unfold vitalsValid; infer_instance

/-- Age range, from the CHECK constraint of the `patients` table. -/
def ageValid (a : Int) : Prop := 0 ≤ a ∧ a ≤ 150

instance (a : Int) : Decidable (ageValid a) := by
  unfold ageValid; infer_instance

/-- Output of the rule guardrail, from spec section 4.1:
`triggered: bool, level: risk_level|none, reasons: [text]` (the frontend
response adds `override_ml`, implied when a critical rule fires). -/
structure RuleResult where
  triggered : Bool
  risk_level : Option RiskLevel
  reasons : List String
deriving DecidableEq, Repr

/-- Modelled from the spec: the rule guardrail (`rules/news2_guardrail.py`) is
not under src/; this is the minimum rule set of spec section 4.1, listed
top-to-bottom in table order, each entry giving (fired?, candidate level,
reason text). -/
def ruleChecks (v : Vitals) (syms : List SymptomInput)
    (fl : VulnerabilityFlags) : List (Bool × RiskLevel × String) :=
  [ (decide (v.spo2Tenths < 900), RiskLevel.critical,
      "SpO2 < 90%"),
    (decide (v.systolic_bp < 90) || decide (v.systolic_bp > 220),
      RiskLevel.critical, "Systolic BP < 90 or > 220 mmHg"),
    (decide (v.respiratory_rate < 8) || decide (v.respiratory_rate > 30),
      RiskLevel.critical, "Respiratory rate < 8 or > 30 /min"),
    (decide (v.heart_rate < 40) || decide (v.heart_rate > 130),
      RiskLevel.critical, "Heart rate < 40 or > 130 bpm"),
    (decide (v.temperatureTenths < 350) || decide (v.temperatureTenths > 395),
      RiskLevel.critical, "Temperature < 35.0 or > 39.5 C"),
    (v.gcs_score.any (fun g => decide (g < 13)), RiskLevel.critical,
      "GCS score < 13"),
    (syms.any (fun s => s.is_red_flag), RiskLevel.critical,
      "Red-flag symptom reported"),
    (fl.pregnant && decide (140 ≤ v.systolic_bp)
        && decide (90 ≤ v.diastolic_bp),
      RiskLevel.critical, "Pregnancy hypertension"),
    (decide (v.heart_rate > 120)
        || (decide (900 ≤ v.spo2Tenths) && decide (v.spo2Tenths < 940))
        || decide (v.temperatureTenths > 385),
      RiskLevel.high, "Tachycardia, borderline SpO2 or fever") ]

/-- Modelled from the spec: rule guardrail result (spec section 4.1) — the
level is the maximum severity across triggered rules, reasons follow table
order. -/
def ruleEngine (v : Vitals) (syms : List SymptomInput)
    (fl : VulnerabilityFlags) : RuleResult :=
  let fired := (ruleChecks v syms fl).filter (fun c => c.1)
  { triggered := decide (fired ≠ [])
    risk_level :=
      match fired with
      | [] => none
      | _ => some (fired.foldl (fun acc c => maxLevel acc c.2.1) RiskLevel.low)
    reasons := fired.map (fun c => c.2.2) }

/-- A feature value inside a SHAP attribution (`value: unknown` in the
frontend interface; the payloads in the repository carry numbers or
booleans). -/
inductive SHAPValue where
  | int (n : Int)
  | bool (b : Bool)
deriving DecidableEq, Repr

/-- SHAP feature attribution, from the frontend `SHAPFeature` interface
(`shap_value` in thousandths). -/
structure SHAPFeature where
  feature : String
  value : SHAPValue
  shapThousandths : Int
  label : String
deriving DecidableEq, Repr

/-- ML analyzer output, from the frontend `MLResult` interface
(probability in thousandths). -/
structure MLResult where
  probThousandths : Int
  risk_level : RiskLevel
  shap_features : List SHAPFeature
  shap_text : String
deriving DecidableEq, Repr

/-- Medication warning, from the frontend `MedWarning` interface. -/
inductive WarningType where
  | ddi
  | drug_condition
  | drug_symptom
deriving DecidableEq, Repr

/-- Medication-warning severity, from the `drug_interactions.severity`
check constraint and the frontend `MedWarning` interface. -/
inductive MedSeverity where
  | mild
  | moderate
  | severe
  | contraindicated
deriving DecidableEq, Repr

/-- One medication warning, from the frontend `MedWarning` interface. -/
structure MedWarning where
  drug1 : String
  drug2 : Option String
  warning_type : WarningType
  severity : MedSeverity
  message : String
  action_required : Bool
  override_triggered : Bool
deriving DecidableEq, Repr

/-- Persisted risk assessment, from the `risk_assessments` table of the
schema: `final_risk_level` is a NOT NULL enum column, so the field is a
plain `RiskLevel`, never optional. -/
structure Assessment where
  rule_triggered : Bool
  rule_level : Option RiskLevel
  rule_reasons : List String
  ml_risk_probability : Option Int
  ml_risk_level : Option RiskLevel
  med_warnings : List MedWarning
  med_override_triggered : Bool
  final_risk_level : RiskLevel
  final_risk_score : Int
  escalation_suggested : Bool
deriving DecidableEq, Repr

/-- Modelled from the spec: override precedence of the decision aggregator
(spec section 4.4): rule-critical first, then medication override
(max(model level, high)), then the model level when available, else the
worst of the rule level and low. -/
def finalRiskLevel (rule : RuleResult) (ml : Option MLResult)
    (warnings : List MedWarning) : RiskLevel :=
  if rule.risk_level = some RiskLevel.critical then RiskLevel.critical
  else if warnings.any (fun w => w.override_triggered) then
    match ml with
    | some m => maxLevel m.risk_level RiskLevel.high
    | none => RiskLevel.high
  else
    match ml with
    | some m => m.risk_level
    | none =>
      match rule.risk_level with
      | some l => maxLevel l RiskLevel.low
      | none => RiskLevel.low

/-- Modelled from the spec: `final_risk_score` (spec section 4.4) — the model
probability when present, otherwise a constant per final level
(1.0 / 0.70 / 0.45 / 0.15, in thousandths). -/
def finalRiskScore (ml : Option MLResult) (final : RiskLevel) : Int :=
  match ml with
  | some m => m.probThousandths
  | none =>
    match final with
    | .critical => 1000
    | .high => 700
    | .moderate => 450
    | .low => 150

/-- Modelled from the spec: the aggregator's joined assessment (spec
section 4.4); `escalation_suggested` is true whenever the final level is
high or critical or a medication override fired. -/
def aggregate (rule : RuleResult) (ml : Option MLResult)
    (warnings : List MedWarning) : Assessment :=
  let final := finalRiskLevel rule ml warnings
  { rule_triggered := rule.triggered
    rule_level := rule.risk_level
    rule_reasons := rule.reasons
    ml_risk_probability := ml.map (fun m => m.probThousandths)
    ml_risk_level := ml.map (fun m => m.risk_level)
    med_warnings := warnings
    med_override_triggered := warnings.any (fun w => w.override_triggered)
    final_risk_level := final
    final_risk_score := finalRiskScore ml final
    escalation_suggested :=
      final = RiskLevel.high ∨ final = RiskLevel.critical
        ∨ warnings.any (fun w => w.override_triggered) }

/-- Error kinds of the service, from spec section 7. -/
inductive ApiError where
  | validationError (detail : String)
  | authError (detail : String)
  | tokenInvalid (detail : String)
  | stateError (detail : String)
  | unavailable (detail : String)
  | internal (detail : String)
deriving DecidableEq, Repr

/-- Modelled from the spec: the analyze request handler
(`endpoints/analyze.py`) is not under src/; per spec sections 3(e), 6 and 7
the request validates first (Pydantic ranges, identical to the schema CHECK
constraints) and only then fans out to the analyzers and joins at the
aggregator.  The ML result (absent when the model artifact is unavailable)
and the medication-engine warnings enter as the joined analyzer outputs. -/
def analyze (ml : Option MLResult) (warnings : List MedWarning)
    (req : IntakeRequest) : Except ApiError Assessment :=
  if vitalsValid req.vitals ∧ ageValid req.age then
    Except.ok (aggregate
      (ruleEngine req.vitals req.symptoms req.vulnerability_flags)
      ml warnings)
  else
    Except.error (ApiError.validationError "input out of declared range")

/-- Case status, from the `case_status` enum of the database schema. -/
inductive CaseStatus where
  | intake
  | analyzed
  | escalated
  | specialist_reviewing
  | advised
  | closed
  | cancelled
deriving DecidableEq, Repr

/-- The declared status set of spec section 3. -/
def declaredStatuses : List CaseStatus :=
  [ .intake, .analyzed, .escalated, .specialist_reviewing,
    .advised, .closed, .cancelled ]

/-- Case-store operations, from spec section 4.6 (`write_assessment`,
`mint_escalation`, `consume_escalation`, `append_advice`, close, cancel). -/
inductive CaseOp where
  | writeAssessment
  | mintEscalation
  | consumeEscalation
  | appendAdvice
  | closeCase
  | cancelCase
deriving DecidableEq, Repr

/-- Modelled from the spec: the case store (`services/case_service.py`) is not
under src/; the transition function follows the lifecycle of spec section 3:
intake → analyzed on aggregation write, → escalated on token mint,
→ specialist_reviewing on first token use, → advised on advice submission
(advice permitted while escalated / specialist_reviewing / advised),
→ closed by the owning PHW from any non-terminal status, and cancelled
terminal from any non-closed status.  `none` is the 409 stateError. -/
def stepCase (s : CaseStatus) (op : CaseOp) : Option CaseStatus :=
  match op, s with
  | .writeAssessment, .intake => some .analyzed
  | .writeAssessment, _ => none
  | .mintEscalation, .analyzed => some .escalated
  | .mintEscalation, _ => none
  | .consumeEscalation, .escalated => some .specialist_reviewing
  | .consumeEscalation, _ => none
  | .appendAdvice, .escalated => some .advised
  | .appendAdvice, .specialist_reviewing => some .advised
  | .appendAdvice, .advised => some .advised
  | .appendAdvice, _ => none
  | .closeCase, .closed => none
  | .closeCase, .cancelled => none
  | .closeCase, _ => some .closed
  | .cancelCase, .closed => none
  | .cancelCase, .cancelled => none
  | .cancelCase, _ => some .cancelled

/-- Modelled from the spec: a case starts at `intake` (spec section 3); a
rejected transition (stateError) leaves the status unchanged. -/
def runCaseOps (ops : List CaseOp) : CaseStatus :=
  ops.foldl (fun s op => (stepCase s op).getD s) CaseStatus.intake

-- ── API client (src/unnamed/part_001) ────────────────────────────────────

/-- JavaScript truthiness of a nullable string: `null` and the empty string
are falsy. -/
def truthy : Option String → Bool
  | none => false
  | some s => decide (s ≠ "")

/-- Property read `obj[k]` on a JS object modelled as an association list:
the first binding of the key, or none. -/
def objGet : List (String × String) → String → Option String
  | [], _ => none
  | p :: rest, k => if p.1 == k then some p.2 else objGet rest k

/-- `headers[k] = v` on a JS object modelled as an association list: replace
the existing entry or append. -/
def setHeader (hs : List (String × String)) (k v : String) :
    List (String × String) :=
  if hs.any (fun p => p.1 == k) then
    hs.map (fun p => if p.1 == k then (k, v) else p)
  else hs ++ [(k, v)]

/-- Header construction of `request` in the API client: a Content-Type base
merged with the caller's extra headers, then `Authorization: Bearer <token>`
added iff `auth` is set and the stored token is truthy. -/
def requestHeaders (auth : Bool) (token : Option String)
    (extra : List (String × String)) : List (String × String) :=
  let base := [("Content-Type", "application/json")] ++ extra
  if auth then
    match token with
    | some t => if t ≠ "" then setHeader base "Authorization" ("Bearer " ++ t)
                else base
    | none => base
  else base

/-- An HTTP call issued by the API client: method, path under the base URL,
and whether `request` runs with its `auth` flag set. -/
structure ApiRequest where
  method : String
  path : String
  auth : Bool
deriving DecidableEq, Repr

/-- `getSpecialistPortal` of the API client: GET with `auth = false`. -/
def getSpecialistPortalReq (token : String) : ApiRequest :=
  { method := "GET", path := "/specialist/portal/" ++ token, auth := false }

/-- `submitAdvice` of the API client: POST with `auth = false`. -/
def submitAdviceReq : ApiRequest :=
  { method := "POST", path := "/specialist/advice", auth := false }

/-- `getCases` of the API client: GET with the default `auth = true`. -/
def getCasesReq : ApiRequest :=
  { method := "GET", path := "/cases", auth := true }

/-- `getCase` of the API client: GET with the default `auth = true`. -/
def getCaseReq (caseId : String) : ApiRequest :=
  { method := "GET", path := "/cases/" ++ caseId, auth := true }

/-- `analyzeRisk` of the API client: POST with the default `auth = true`. -/
def analyzeRiskReq : ApiRequest :=
  { method := "POST", path := "/analyze/risk", auth := true }

/-- `escalateCase` of the API client: POST with the default `auth = true`. -/
def escalateCaseReq : ApiRequest :=
  { method := "POST", path := "/escalate", auth := true }

/-- The headers `request` sends for a given call and stored token (no caller
in the client passes extra headers). -/
def headersSent (r : ApiRequest) (stored : Option String) :
    List (String × String) :=
  requestHeaders r.auth stored []

-- ── Token storage (src/unnamed/part_001) ─────────────────────────────────

/-- Client-side token state: the module-level `_token` variable and the
browser's localStorage, as an association list of key/value pairs. -/
structure TokenState where
  mem : Option String
  store : List (String × String)
deriving DecidableEq, Repr

/-- `localStorage.setItem`. -/
def lsSetItem (st : List (String × String)) (k v : String) :
    List (String × String) :=
  setHeader st k v

/-- `localStorage.removeItem`. -/
def lsRemoveItem (st : List (String × String)) (k : String) :
    List (String × String) :=
  st.filter (fun p => !(p.1 == k))

/-- `localStorage.getItem`: the stored string or `null`. -/
def lsGetItem (st : List (String × String)) (k : String) : Option String :=
  objGet st k

/-- `setToken` of the API client (in the browser, where `window` is
defined): store in `_token`, and persist under key "cdss_token" when the
value is truthy, else remove the key. -/
def setToken (t : Option String) (s : TokenState) : TokenState :=
  { mem := t
    store :=
      match t with
      | some v => if v ≠ "" then lsSetItem s.store "cdss_token" v
                  else lsRemoveItem s.store "cdss_token"
      | none => lsRemoveItem s.store "cdss_token" }

/-- `getToken` of the API client: return `_token` when truthy, otherwise
reload it from localStorage (caching the result) and return that. -/
def getToken (s : TokenState) : Option String × TokenState :=
  if truthy s.mem then (s.mem, s)
  else
    let v := lsGetItem s.store "cdss_token"
    (v, { s with mem := v })

/-- `clearToken` of the API client: `setToken(null)`. -/
def clearToken (s : TokenState) : TokenState :=
  setToken none s

/-- A page reload: module state resets, localStorage persists. -/
def reload (s : TokenState) : TokenState :=
  { mem := none, store := s.store }

-- ── WebSocket message handling (src/unnamed/part_001) ────────────────────

/-- Advice type, from the `advice_type` enum of the schema and the frontend
`AdviceType` union (the source value `admit` is rendered here as
`admitHospital`). -/
inductive AdviceType where
  | urgent_referral
  | observe_2h
  | manage_locally
  | start_iv_fluids
  | admitHospital
  | custom
deriving DecidableEq, Repr

/-- Specialist advice payload, from the frontend `SpecialistAdviceRequest`
interface. -/
structure SpecialistAdviceRequest where
  case_id : String
  advice_type : AdviceType
  custom_notes : Option String
  medications_advised : List String
  investigations : List String
  follow_up_hours : Option Int
deriving DecidableEq, Repr

/-- Live-event message type tag, from the frontend `WSMessage` interface. -/
inductive WSType where
  | statusUpdate
  | advicePush
  | ping
deriving DecidableEq, Repr

/-- Live-event message, from the frontend `WSMessage` interface. -/
structure WSMessage where
  type : WSType
  case_id : Option String
  status : Option String
  advice : Option SpecialistAdviceRequest
  timestamp : Option String
deriving DecidableEq, Repr

/-- The `onmessage` handler installed by `createCaseWebSocket`: the frame
text is passed to `JSON.parse` inside a try block; on success the
subscriber's callback receives the parsed message, on failure the frame is
logged with `console.warn` and dropped.  `parse` stands for `JSON.parse`
(a platform builtin); the result lists the callback invocations, paired
with whether the parse-error warning was logged.  The handler is a total
function: the catch block lets no exception escape. -/
def wsHandleFrame (parse : String → Except String WSMessage)
    (frame : String) : List WSMessage × Bool :=
  match parse frame with
  | Except.ok m => ([m], false)
  | Except.error _ => ([], true)

-- ── Login page (src/night/frontend/components/pages/LoginPage.tsx) ───────

/-- User role, from the frontend `TokenResponse.role` union. -/
inductive Role where
  | phw
  | specialist
deriving DecidableEq, Repr

/-- Login service response, from the frontend `TokenResponse` interface. -/
structure TokenResponse where
  access_token : String
  token_type : String
  role : Role
  full_name : String
deriving DecidableEq, Repr

/-- Authenticated user, from the frontend `User` interface (fields the login
page fills). -/
structure User where
  id : String
  email : String
  full_name : String
  role : Role
deriving DecidableEq, Repr

/-- One entry of the login page's `DEMO_ACCOUNTS` table. -/
structure DemoAccount where
  email : String
  password : String
  role : String
  name : String
  id : String
deriving DecidableEq, Repr

/-- `DEMO_ACCOUNTS` of the login page. -/
def DEMO_ACCOUNTS : List DemoAccount :=
  [ { email := "phw@phc.in", password := "demo123", role := "PHW",
      name := "Priya Sharma", id := "phw-001" },
    { email := "doctor@hospital.in", password := "demo123",
      role := "Specialist", name := "Dr. Arjun Mehta", id := "spec-001" } ]

/-- Result of a login attempt as the client observes it: the value passed to
`setToken` if any (the api `login` stores the access token itself on
success; the demo path stores "demo-token-" ++ role), the user handed to
`onSuccess` if any, and the error message shown if any. -/
structure LoginOutcome where
  tokenStoredAs : Option String
  user : Option User
  errorMsg : Option String
deriving DecidableEq, Repr

/-- `handleSubmit` of the login page: on service success the api client has
stored the access token and `onSuccess` fires; on service rejection the
entered credentials are matched against `DEMO_ACCOUNTS` — a match stores a
demo token and logs in locally, otherwise the error is shown and nothing is
stored.  `svc` is the outcome of `login`; `nowId` stands for
`Date.now()`. -/
def handleLoginSubmit (email password : String)
    (svc : Except String TokenResponse) (nowId : String) : LoginOutcome :=
  match svc with
  | Except.ok data =>
    { tokenStoredAs := some data.access_token
      user := some { id := "user-" ++ nowId, email := email,
                     full_name := data.full_name, role := data.role }
      errorMsg := none }
  | Except.error e =>
    match DEMO_ACCOUNTS.find? (fun a =>
        a.email == email && a.password == password) with
    | some demo =>
      { tokenStoredAs := some ("demo-token-" ++ demo.role)
        user := some { id := demo.id, email := demo.email,
                       full_name := demo.name,
                       role := if demo.role == "PHW" then Role.phw
                               else Role.specialist }
        errorMsg := none }
    | none =>
      { tokenStoredAs := none, user := none, errorMsg := some e }

-- ── Specialist portal page (SpecialistPortalPage.tsx) ────────────────────

/-- Rule-engine block of an assessment response, from the frontend
`RuleEngineResult` interface. -/
structure RuleEngineResult where
  triggered : Bool
  risk_level : Option RiskLevel
  reasons : List String
  override_ml : Bool
deriving DecidableEq, Repr

/-- Full assessment response, from the frontend `RiskAssessmentResponse`
interface (`final_risk_score` and the ML probability in thousandths). -/
structure RiskAssessmentResponse where
  assessment_id : String
  case_id : String
  final_risk_level : RiskLevel
  final_risk_score : Int
  rule_engine : RuleEngineResult
  ml_result : Option MLResult
  med_warnings : List MedWarning
  recommendation : String
  escalation_suggested : Bool
  assessed_at : String
deriving DecidableEq, Repr

/-- Patient summary block, from the frontend `SpecialistPortalData`
interface. -/
structure PatientSummary where
  age : Int
  sex : Sex
  vulnerability_flags : VulnerabilityFlags
deriving DecidableEq, Repr

/-- Structured handover, from the frontend `EscalationResponse.sbar`
shape. -/
structure SBAR where
  situation : String
  background : String
  assessment : String
  recommendation : String
deriving DecidableEq, Repr

/-- Case bundle shown to the specialist, from the frontend
`SpecialistPortalData` interface. -/
structure SpecialistPortalData where
  case_id : String
  patient_summary : PatientSummary
  vitals : Vitals
  symptoms : List SymptomInput
  medications : List MedicationInput
  risk_assessment : RiskAssessmentResponse
  sbar : SBAR
  phw_name : String
  facility : String
  escalated_at : String
deriving DecidableEq, Repr

/-- The hard-coded demo bundle of the portal page's catch block (`loadPortal`
falls back to it whenever `getSpecialistPortal` rejects).  `now` stands for
`new Date().toISOString()`. -/
def demoPortalData (now : String) : SpecialistPortalData :=
  { case_id := "demo-case-001"
    patient_summary :=
      { age := 32, sex := Sex.female
        vulnerability_flags :=
          { pregnant := true, diabetic := false, elderly := false,
            heart_disease := false, immunocompromised := false } }
    vitals :=
      { systolic_bp := 155, diastolic_bp := 100, heart_rate := 98,
        respiratory_rate := 20, spo2Tenths := 970,
        temperatureTenths := 372, blood_glucose_mgdl := none,
        weight_kgTenths := none, gcs_score := none }
    symptoms :=
      [ { symptom_name := "Severe headache", is_red_flag := true,
          severity := some Severity.severe, duration_hours := some 6 },
        { symptom_name := "Blurred vision", is_red_flag := true,
          severity := some Severity.severe, duration_hours := some 4 } ]
    medications :=
      [ { rxnorm_code := none, drug_name := "Iron supplement",
          dose := some "100mg", frequency := none, route := none },
        { rxnorm_code := none, drug_name := "Folic acid",
          dose := some "5mg", frequency := none, route := none } ]
    risk_assessment :=
      { assessment_id := "assess-demo"
        case_id := "demo-case-001"
        final_risk_level := RiskLevel.critical
        final_risk_score := 910
        rule_engine :=
          { triggered := true
            risk_level := some RiskLevel.critical
            reasons :=
              ["Pregnancy hypertension (possible preeclampsia): BP 155/100 mmHg"]
            override_ml := true }
        ml_result := some
          { probThousandths := 840
            risk_level := RiskLevel.high
            shap_features :=
              [ { feature := "systolic_bp", value := SHAPValue.int 155,
                  shapThousandths := 380,
                  label := "Elevated BP (155 mmHg) is top risk driver" },
                { feature := "pregnant", value := SHAPValue.bool true,
                  shapThousandths := 290,
                  label := "Pregnancy flag significantly elevates risk" },
                { feature := "headache", value := SHAPValue.bool true,
                  shapThousandths := 180,
                  label := "Severe headache is a red-flag symptom" } ]
            shap_text :=
              "Pregnancy + elevated BP + severe headache suggest preeclampsia — high risk." }
        med_warnings := []
        recommendation :=
          "⚠️ IMMEDIATE ESCALATION REQUIRED. Signs consistent with preeclampsia. Maternal emergency protocol — ensure IV access, monitor fetal heart rate."
        escalation_suggested := true
        assessed_at := now }
    sbar :=
      { situation :=
          "32-year-old pregnant female (34 weeks) presenting with BP 155/100 mmHg, severe headache, and blurred vision."
        background :=
          "No prior hypertension. On iron + folic acid. Escalated by PHW Priya Sharma, PHC Wardha Rural."
        assessment :=
          "AI classified CRITICAL (score 0.91). Rule engine triggered: pregnancy hypertension (possible preeclampsia). ML risk: 84%."
        recommendation :=
          "Urgent specialist assessment required. Consider magnesium sulfate for seizure prophylaxis. Antihypertensive therapy indicated." }
    phw_name := "Priya Sharma"
    facility := "PHC Wardha Rural"
    escalated_at := now }

/-- Portal page state after loading: the `data`, `loading` and `error` React
state variables. -/
structure PortalState where
  data : Option SpecialistPortalData
  loading : Bool
  error : Option String
deriving DecidableEq, Repr

/-- `loadPortal` of the portal page: await `getSpecialistPortal(token)` and
store the bundle; the catch block substitutes the demo bundle (no error
state is ever set); the finally block clears `loading`.  `fetch` is the
outcome of the `getSpecialistPortal` call. -/
def loadPortal (fetch : Except String SpecialistPortalData)
    (now : String) : PortalState :=
  match fetch with
  | Except.ok d => { data := some d, loading := false, error := none }
  | Except.error _ =>
    { data := some (demoPortalData now), loading := false, error := none }

/-- What the portal page renders. -/
inductive PortalView where
  | loadingView
  | errorView
  | bundleView (d : SpecialistPortalData)
  | submittedView
deriving DecidableEq, Repr

/-- The portal page's render branches: the spinner while loading, the
"Portal Not Found" screen when an error is set or no data is present,
the submitted-confirmation screen after `submitted` is set, else the case
bundle. -/
def renderPortal (s : PortalState) (submitted : Bool) : PortalView :=
  if s.loading then PortalView.loadingView
  else
    match s.error, s.data with
    | none, some d =>
      if submitted then PortalView.submittedView else PortalView.bundleView d
    | _, _ => PortalView.errorView

/-- Service acknowledgement of an advice submission, from the return type of
`submitAdvice` in the API client. -/
structure AdviceAck where
  status : String
  case_id : String
deriving DecidableEq, Repr

/-- `handleSubmitAdvice` of the portal page: bail out when no advice type is
selected or no bundle is loaded; otherwise await `submitAdvice` — the try
branch sets `submitted`, and the catch branch ("Demo: just show success")
sets `submitted` as well.  The result is the `submitted` flag the page ends
in (initially false); `svc` is the outcome of the `submitAdvice` call. -/
def handleSubmitAdvicePage (adviceType : Option AdviceType)
    (data : Option SpecialistPortalData)
    (svc : Except String AdviceAck) : Bool :=
  match adviceType, data with
  | some _, some _ =>
    match svc with
    | Except.ok _ => true
    | Except.error _ => true
  | _, _ => false

-- ── Concrete inputs used by witnesses ────────────────────────────────────

/-- A low-risk model output used as a concrete ML analyzer result. -/
def mlLow : MLResult :=
  { probThousandths := 120, risk_level := RiskLevel.low,
    shap_features := [], shap_text := "Inputs within normal bands." }

/-- Vitals of the S1 scenario of the spec (sbp 85, spo2 85.5): severe
hypotension and desaturation, both critical rule triggers. -/
def vitalsCritW : Vitals :=
  { systolic_bp := 85, diastolic_bp := 55, heart_rate := 118,
    respiratory_rate := 26, spo2Tenths := 855, temperatureTenths := 388,
    blood_glucose_mgdl := none, weight_kgTenths := none, gcs_score := none }

/-- Vulnerability flags of the S1 scenario. -/
def flagsW : VulnerabilityFlags :=
  { pregnant := false, diabetic := true, elderly := false,
    heart_disease := true, immunocompromised := false }

/-- An intake request whose vitals trigger the critical rules. -/
def reqCritW : IntakeRequest :=
  { patient_name := "Sunita Devi", age := 45, sex := Sex.female,
    village := none, district := none, vulnerability_flags := flagsW,
    vitals := vitalsCritW, medications := [], symptoms := [],
    chief_complaint := "Severe chest pain and breathing difficulty" }

/-- The assessment the engine produces for `reqCritW` with a low ML tier. -/
def assessCritW : Assessment :=
  aggregate (ruleEngine vitalsCritW [] flagsW) (some mlLow) []

/-- Benign vitals of the S2 scenario of the spec. -/
def vitalsBenign : Vitals :=
  { systolic_bp := 122, diastolic_bp := 78, heart_rate := 72,
    respiratory_rate := 16, spo2Tenths := 980, temperatureTenths := 369,
    blood_glucose_mgdl := none, weight_kgTenths := none, gcs_score := none }

/-- Empty vulnerability flags. -/
def flagsNone : VulnerabilityFlags :=
  { pregnant := false, diabetic := false, elderly := false,
    heart_disease := false, immunocompromised := false }

/-- A benign intake request. -/
def reqBenign : IntakeRequest :=
  { patient_name := "Ravi Kumar", age := 28, sex := Sex.male,
    village := none, district := none, vulnerability_flags := flagsNone,
    vitals := vitalsBenign, medications := [], symptoms := [],
    chief_complaint := "Mild headache for two days" }

/-- The assessment the engine produces for `reqBenign` with the model
unavailable. -/
def assessBenignNoMl : Assessment :=
  aggregate (ruleEngine vitalsBenign [] flagsNone) none []

/-- Vitals with an out-of-range systolic blood pressure (400 > 350). -/
def vitalsBad : Vitals :=
  { systolic_bp := 400, diastolic_bp := 70, heart_rate := 80,
    respiratory_rate := 16, spo2Tenths := 980, temperatureTenths := 369,
    blood_glucose_mgdl := none, weight_kgTenths := none, gcs_score := none }

/-- An intake request carrying the out-of-range vitals. -/
def reqBad : IntakeRequest :=
  { patient_name := "Test Patient", age := 30, sex := Sex.other,
    village := none, district := none, vulnerability_flags := flagsNone,
    vitals := vitalsBad, medications := [], symptoms := [],
    chief_complaint := "Routine check" }

/-- A keepalive live-event message. -/
def pingMsg : WSMessage :=
  { type := WSType.ping, case_id := none, status := none,
    advice := none, timestamp := none }

/-- A concrete stand-in for `JSON.parse` that accepts exactly the frame
"ping-frame". -/
def parseDemo : String → Except String WSMessage :=
  fun s => if s == "ping-frame" then Except.ok pingMsg
           else Except.error "Unexpected token"

-- ── Helper lemmas ────────────────────────────────────────────────────────

/-- Overwriting a present key entry by entry preserves what `objGet` finds. -/
theorem objGet_map_set (k v : String) :
    ∀ st : List (String × String), st.any (fun p => p.1 == k) = true →
      objGet (st.map (fun p => if p.1 == k then (k, v) else p)) k = some v := by
  intro st
  induction st with
  | nil => intro h; cases h
  | cons p rest ih =>
    intro h
    by_cases hp : p.1 = k
    · simp [objGet, hp]
    · have h2 : rest.any (fun p => p.1 == k) = true := by
        simpa [List.any_cons, hp] using h
      simpa [objGet, hp] using ih h2

/-- Appending a fresh key is found by `objGet` when the key was absent. -/
theorem objGet_append_new (k v : String) :
    ∀ st : List (String × String), st.any (fun p => p.1 == k) = false →
      objGet (st ++ [(k, v)]) k = some v := by
  intro st
  induction st with
  | nil => intro h2; simp [objGet]
  | cons p rest ih =>
    intro h
    have hp : ¬ p.1 = k := by
      intro he
      simp [List.any_cons, he] at h
    have hrest : rest.any (fun p => p.1 == k) = false := by
      simpa [List.any_cons, hp] using h
    simpa [objGet, hp] using ih hrest

/-- Writing a key with `setHeader` makes it the value `objGet` finds. -/
theorem objGet_setHeader (k v : String) (st : List (String × String)) :
    objGet (setHeader st k v) k = some v := by
  unfold setHeader
  by_cases ha : st.any (fun p => p.1 == k) = true
  · rw [if_pos ha]
    exact objGet_map_set k v st ha
  · have haf : st.any (fun p => p.1 == k) = false := Bool.eq_false_iff.mpr ha
    rw [haf]
    simp only [Bool.false_eq_true, if_false]
    exact objGet_append_new k v st haf

/-- Removing a key with `lsRemoveItem` makes `lsGetItem` miss it. -/
theorem lsGetItem_lsRemoveItem (k : String) :
    ∀ st : List (String × String), lsGetItem (lsRemoveItem st k) k = none := by
  intro st
  induction st with
  | nil => rfl
  | cons p rest ih =>
    by_cases hp : p.1 = k
    · have hb : (!(p.1 == k)) = false := by simp [hp]
      simpa [lsRemoveItem, lsGetItem, List.filter_cons, hb] using ih
    · have hb : (!(p.1 == k)) = true := by simp [hp]
      simp only [lsRemoveItem, lsGetItem, List.filter_cons, hb, if_true]
      simpa [objGet, hp, lsRemoveItem, lsGetItem] using ih

-- ── Claim theorems ───────────────────────────────────────────────────────

/-- Claim C1: for every analyze request, if the rule guardrail triggers with
level critical, the assessment's final_risk_level is critical regardless of
the model's output (rule-critical overrides ML in the aggregated result). -/
theorem rule_critical_overrides_ml (ml : Option MLResult)
    (w : List MedWarning) (req : IntakeRequest) (a : Assessment)
    (h : analyze ml w req = Except.ok a)
    (hc : a.rule_level = some RiskLevel.critical) :
    a.final_risk_level = RiskLevel.critical := by
  by_cases hv : vitalsValid req.vitals ∧ ageValid req.age
  · rw [analyze, if_pos hv] at h
    obtain rfl : aggregate (ruleEngine req.vitals req.symptoms
        req.vulnerability_flags) ml w = a := by
      injection h
    simp only [aggregate] at hc ⊢
    simp [finalRiskLevel, hc]
  · rw [analyze, if_neg hv] at h
    cases h

/-- Witness for C1: the S1-style request with a low ML tier still yields a
critical final level. -/
theorem rule_critical_overrides_ml_witness :
    assessCritW.final_risk_level = RiskLevel.critical :=
  rule_critical_overrides_ml (some mlLow) [] reqCritW assessCritW
    rfl (by decide)

/-- Claim C2: every assessment the engine produces carries exactly one
final_risk_level and that value is one of low, moderate, high or critical,
for all inputs including when the model is unavailable (the field is a
NOT NULL enum column, never absent). -/
theorem final_risk_level_always_defined (ml : Option MLResult)
    (w : List MedWarning) (req : IntakeRequest) (a : Assessment)
    (h : analyze ml w req = Except.ok a) :
    a.final_risk_level = RiskLevel.low ∨
    a.final_risk_level = RiskLevel.moderate ∨
    a.final_risk_level = RiskLevel.high ∨
    a.final_risk_level = RiskLevel.critical := by
  cases hl : a.final_risk_level
  · exact Or.inl rfl
  · exact Or.inr (Or.inl rfl)
  · exact Or.inr (Or.inr (Or.inl rfl))
  · exact Or.inr (Or.inr (Or.inr rfl))

/-- Witness for C2: a benign request analyzed with the model unavailable
still yields a defined final level. -/
theorem final_risk_level_always_defined_witness :
    assessBenignNoMl.final_risk_level = RiskLevel.low ∨
    assessBenignNoMl.final_risk_level = RiskLevel.moderate ∨
    assessBenignNoMl.final_risk_level = RiskLevel.high ∨
    assessBenignNoMl.final_risk_level = RiskLevel.critical :=
  final_risk_level_always_defined none [] reqBenign assessBenignNoMl rfl

/-- Claim C3: a request whose vitals fall outside the declared ranges fails
validation with a validationError before any analyzer runs, and conversely
any request the engine accepts had in-range vitals — out-of-range values
never reach the analyzers. -/
theorem out_of_range_vitals_rejected :
    (∀ (ml : Option MLResult) (w : List MedWarning) (req : IntakeRequest),
      ¬ vitalsValid req.vitals →
      analyze ml w req =
        Except.error (ApiError.validationError "input out of declared range"))
    ∧
    (∀ (ml : Option MLResult) (w : List MedWarning) (req : IntakeRequest)
      (a : Assessment), analyze ml w req = Except.ok a →
      vitalsValid req.vitals) := by
  constructor
  · intro ml w req h
    rw [analyze, if_neg (fun hc => h hc.1)]
  · intro ml w req a h
    by_cases hv : vitalsValid req.vitals ∧ ageValid req.age
    · exact hv.1
    · rw [analyze, if_neg hv] at h
      cases h

/-- Witness for C3: a systolic pressure of 400 is rejected with a
validation error, and the accepted S1-style request had in-range vitals. -/
theorem out_of_range_vitals_rejected_witness :
    analyze none [] reqBad =
      Except.error (ApiError.validationError "input out of declared range")
    ∧ vitalsValid reqCritW.vitals :=
  ⟨out_of_range_vitals_rejected.1 none [] reqBad (by decide),
   out_of_range_vitals_rejected.2 (some mlLow) [] reqCritW assessCritW rfl⟩

/-- Claim C4: a case's status is always a member of the declared set
(intake, analyzed, escalated, specialist_reviewing, advised, closed,
cancelled); no sequence of case-store operations produces a status outside
it. -/
theorem case_status_within_declared_set (ops : List CaseOp) :
    runCaseOps ops ∈ declaredStatuses := by
  cases h : runCaseOps ops <;> simp [declaredStatuses]

/-- Claim C5 (code bug): a portal read whose service call fails (expired or
unknown escalation token) does not leave the specialist on the error
screen — the catch block substitutes the built-in demo bundle and the page
renders that case data; the "Portal Not Found" branch is unreachable. -/
theorem invalid_token_portal_shows_demo_bundle :
    renderPortal (loadPortal (Except.error "tokenInvalid")
        "2025-01-15T10:30:00Z") false
      = PortalView.bundleView (demoPortalData "2025-01-15T10:30:00Z")
    ∧ renderPortal (loadPortal (Except.error "tokenInvalid")
        "2025-01-15T10:30:00Z") false
      ≠ PortalView.errorView := by
  constructor
  · rfl
  · decide

/-- Claim C6 (code bug): an advice submission whose service call fails still
leaves the page in the submitted-success state — the catch block sets
`submitted` just like the success path, so the specialist sees a success
indication even though the service rejected the advice. -/
theorem advice_submit_failure_shows_success :
    handleSubmitAdvicePage (some AdviceType.urgent_referral)
      (some (demoPortalData "2025-01-15T10:30:00Z"))
      (Except.error "HTTP 403") = true := rfl

/-- Counterexample for C7: a login attempt the service rejects whose
credentials match a built-in demo account stores the token
"demo-token-PHW" and establishes a logged-in user, contrary to the claim
that no authenticated state is ever established on rejection. -/
theorem login_rejected_demo_creds_logs_in :
    (handleLoginSubmit "phw@phc.in" "demo123"
      (Except.error "Invalid credentials") "0").tokenStoredAs
        = some "demo-token-PHW"
    ∧ (handleLoginSubmit "phw@phc.in" "demo123"
        (Except.error "Invalid credentials") "0").user ≠ none := by
  decide

/-- Claim C7 (amended): for every login attempt the service rejects whose
credentials do not match a built-in demo account, no token is stored, no
user is handed to `onSuccess` (the client stays logged out), and the error
is shown. -/
theorem login_rejected_nondemo_stays_logged_out
    (email password e nowId : String)
    (h : DEMO_ACCOUNTS.find? (fun a =>
        a.email == email && a.password == password) = none) :
    handleLoginSubmit email password (Except.error e) nowId
      = { tokenStoredAs := none, user := none, errorMsg := some e } := by
  simp [handleLoginSubmit, h]

/-- Witness for the amended C7: rejected non-demo credentials end logged
out with the error shown. -/
theorem login_rejected_nondemo_stays_logged_out_witness :
    handleLoginSubmit "nurse@clinic.in" "wrongpass"
      (Except.error "Login failed") "0"
      = { tokenStoredAs := none, user := none,
          errorMsg := some "Login failed" } :=
  login_rejected_nondemo_stays_logged_out "nurse@clinic.in" "wrongpass"
    "Login failed" "0" (by decide)

/-- Claim C8: specialist portal reads and advice submissions carry no
Authorization bearer header whatever token is stored — the escalation
token in the path or body is the sole credential — while every other case
operation attaches the bearer header when a token is present. -/
theorem specialist_requests_carry_no_bearer
    (stored : Option String) (esc caseId t : String) :
    objGet (headersSent (getSpecialistPortalReq esc) stored) "Authorization"
      = none
    ∧ objGet (headersSent submitAdviceReq stored) "Authorization" = none
    ∧ (t ≠ "" →
        objGet (headersSent getCasesReq (some t)) "Authorization"
          = some ("Bearer " ++ t)
        ∧ objGet (headersSent (getCaseReq caseId) (some t)) "Authorization"
          = some ("Bearer " ++ t)
        ∧ objGet (headersSent analyzeRiskReq (some t)) "Authorization"
          = some ("Bearer " ++ t)
        ∧ objGet (headersSent escalateCaseReq (some t)) "Authorization"
          = some ("Bearer " ++ t)) := by
  refine ⟨rfl, rfl, fun ht => ?_⟩
  have hx : ∀ r : ApiRequest, r.auth = true →
      objGet (headersSent r (some t)) "Authorization"
        = some ("Bearer " ++ t) := by
    intro r hr
    have h1 : headersSent r (some t)
        = setHeader ([("Content-Type", "application/json")] ++ [])
            "Authorization" ("Bearer " ++ t) := by
      simp [headersSent, requestHeaders, hr, ht]
    rw [h1]
    exact objGet_setHeader _ _ _
  exact ⟨hx getCasesReq rfl, hx (getCaseReq caseId) rfl,
    hx analyzeRiskReq rfl, hx escalateCaseReq rfl⟩

/-- Witness for C8: with the token "abc" stored, a portal read carries no
Authorization header while a case listing carries the bearer header. -/
theorem specialist_requests_carry_no_bearer_witness :
    objGet (headersSent (getSpecialistPortalReq "tok123") (some "abc"))
      "Authorization" = none
    ∧ objGet (headersSent getCasesReq (some "abc")) "Authorization"
      = some ("Bearer " ++ "abc") := by
  obtain ⟨h1, h2, h3⟩ :=
    specialist_requests_carry_no_bearer (some "abc") "tok123" "c-1" "abc"
  exact ⟨h1, (h3 (by decide)).1⟩

/-- Counterexample for C9: the empty string is a non-null token for which
the round trip fails — `setToken("")` hits the falsy branch (the key is
removed from localStorage) and the following `getToken()` returns null, not
the stored token. -/
theorem empty_token_roundtrip_fails :
    (getToken (setToken (some "") { mem := none, store := [] })).1
      ≠ some ""
    ∧ (getToken (setToken (some "") { mem := none, store := [] })).1
      = none := by
  decide

/-- Claim C9 (amended): for every non-null, nonempty token t, `setToken t`
followed by `getToken` returns t; after `clearToken` a `getToken` returns
null; and because the value is keyed under "cdss_token" in localStorage the
round trip also holds across a reload. -/
theorem token_storage_roundtrip (t : String) (s s2 s3 : TokenState)
    (ht : t ≠ "") :
    (getToken (setToken (some t) s)).1 = some t
    ∧ (getToken (clearToken s2)).1 = none
    ∧ (getToken (reload (setToken (some t) s3))).1 = some t := by
  refine ⟨?_, ?_, ?_⟩
  · simp [getToken, setToken, truthy, ht]
  · simp only [clearToken, setToken, getToken, truthy]
    simpa using lsGetItem_lsRemoveItem "cdss_token" s2.store
  · have hst : (setToken (some t) s3).store
        = lsSetItem s3.store "cdss_token" t := by
      simp [setToken, ht]
    simpa [reload, getToken, truthy, hst, lsGetItem, lsSetItem] using
      objGet_setHeader "cdss_token" t s3.store

/-- Witness for the amended C9: the token "tok-1" round-trips, survives a
reload, and is gone after `clearToken`. -/
theorem token_storage_roundtrip_witness :
    (getToken (setToken (some "tok-1") { mem := none, store := [] })).1
      = some "tok-1"
    ∧ (getToken (clearToken { mem := none, store := [] })).1 = none
    ∧ (getToken (reload (setToken (some "tok-1")
        { mem := none, store := [] }))).1 = some "tok-1" :=
  token_storage_roundtrip "tok-1" _ _ _ (by decide)

/-- Claim C10: a live-event frame that fails to parse as JSON invokes the
subscriber's callback zero times (logged and dropped, no exception
escaping the total handler), and a frame that parses invokes it exactly
once with the parsed message. -/
theorem ws_invalid_frame_dropped_valid_delivered
    (parse : String → Except String WSMessage) (frame : String) :
    (∀ e, parse frame = Except.error e →
      (wsHandleFrame parse frame).1 = [])
    ∧ (∀ m, parse frame = Except.ok m →
      (wsHandleFrame parse frame).1 = [m]) := by
  constructor
  · intro e h
    simp [wsHandleFrame, h]
  · intro m h
    simp [wsHandleFrame, h]

/-- Witness for C10: a garbage frame produces no callback invocation; the
accepted frame delivers exactly the parsed keepalive message. -/
theorem ws_invalid_frame_dropped_valid_delivered_witness :
    (wsHandleFrame parseDemo "garbage").1 = []
    ∧ (wsHandleFrame parseDemo "ping-frame").1 = [pingMsg] :=
  ⟨(ws_invalid_frame_dropped_valid_delivered parseDemo "garbage").1
      "Unexpected token" rfl,
   (ws_invalid_frame_dropped_valid_delivered parseDemo "ping-frame").2
      pingMsg rfl⟩

end CDSS
